import Mathlib

/-!
Verification of the `neuro_secretary` audio-to-protocol pipeline
(`src/neuro_secretary2.py`, with the earlier variant `src/neuro_secretary.py`
modelled where a claim refers to it).

The pipeline is glue code around external services (soundfile, noisereduce,
whisper, the OpenAI chat API, the Telegram bot API).  We embed it shallowly:
the external services are oracle functions collected in an `Env` record, the
observable process state (files on disk, the log, the list of LLM requests
issued, counters of whisper/model-load invocations, messages sent to the
user) is an explicit `St` record threaded through every stage, and Python
exceptions become `Except Err` results.  The MD5 digest used for the cache
key and the temp-file name is implemented concretely, byte for byte.
-/

set_option autoImplicit false

/-! ## MD5, as used by `hashlib.md5(...).hexdigest()` on UTF-8 encoded text -/

namespace MD5

def M32 : Nat := 4294967296

def add32 (a b : Nat) : Nat := (a + b) % M32

def rotl32 (x s : Nat) : Nat := ((x <<< s) % M32) ||| (x >>> (32 - s))

/-- Per-round additive constants of MD5 (RFC 1321). -/
def K : List Nat :=
  [0xd76aa478, 0xe8c7b756, 0x242070db, 0xc1bdceee,
   0xf57c0faf, 0x4787c62a, 0xa8304613, 0xfd469501,
   0x698098d8, 0x8b44f7af, 0xffff5bb1, 0x895cd7be,
   0x6b901122, 0xfd987193, 0xa679438e, 0x49b40821,
   0xf61e2562, 0xc040b340, 0x265e5a51, 0xe9b6c7aa,
   0xd62f105d, 0x02441453, 0xd8a1e681, 0xe7d3fbc8,
   0x21e1cde6, 0xc33707d6, 0xf4d50d87, 0x455a14ed,
   0xa9e3e905, 0xfcefa3f8, 0x676f02d9, 0x8d2a4c8a,
   0xfffa3942, 0x8771f681, 0x6d9d6122, 0xfde5380c,
   0xa4beea44, 0x4bdecfa9, 0xf6bb4b60, 0xbebfbc70,
   0x289b7ec6, 0xeaa127fa, 0xd4ef3085, 0x04881d05,
   0xd9d4d039, 0xe6db99e5, 0x1fa27cf8, 0xc4ac5665,
   0xf4292244, 0x432aff97, 0xab9423a7, 0xfc93a039,
   0x655b59c3, 0x8f0ccc92, 0xffeff47d, 0x85845dd1,
   0x6fa87e4f, 0xfe2ce6e0, 0xa3014314, 0x4e0811a1,
   0xf7537e82, 0xbd3af235, 0x2ad7d2bb, 0xeb86d391]

/-- Per-round left-rotation amounts of MD5. -/
def S : List Nat :=
  [7, 12, 17, 22, 7, 12, 17, 22, 7, 12, 17, 22, 7, 12, 17, 22,
   5, 9, 14, 20, 5, 9, 14, 20, 5, 9, 14, 20, 5, 9, 14, 20,
   4, 11, 16, 23, 4, 11, 16, 23, 4, 11, 16, 23, 4, 11, 16, 23,
   6, 10, 15, 21, 6, 10, 15, 21, 6, 10, 15, 21, 6, 10, 15, 21]

/-- The four 32-bit working registers. -/
structure Regs where
  a : Nat
  b : Nat
  c : Nat
  d : Nat

/-- One of the 64 MD5 rounds on one message chunk `M` (16 words). -/
def step (M : List Nat) (r : Regs) (i : Nat) : Regs :=
  let f :=
    if i < 16 then (r.b &&& r.c) ||| ((r.b ^^^ 0xffffffff) &&& r.d)
    else if i < 32 then (r.d &&& r.b) ||| ((r.d ^^^ 0xffffffff) &&& r.c)
    else if i < 48 then r.b ^^^ r.c ^^^ r.d
    else r.c ^^^ (r.b ||| (r.d ^^^ 0xffffffff))
  let g :=
    if i < 16 then i
    else if i < 32 then (5 * i + 1) % 16
    else if i < 48 then (3 * i + 5) % 16
    else (7 * i) % 16
  let tmp := add32 (add32 (add32 f r.a) (K.getD i 0)) (M.getD g 0)
  ⟨r.d, add32 r.b (rotl32 tmp (S.getD i 0)), r.b, r.c⟩

/-- Process one 512-bit chunk (given as 16 little-endian 32-bit words). -/
def processChunk (r0 : Regs) (M : List Nat) : Regs :=
  let r := (List.range 64).foldl (step M) r0
  ⟨add32 r0.a r.a, add32 r0.b r.b, add32 r0.c r.c, add32 r0.d r.d⟩

/-- Split a byte list into groups of `n`; `fuel` bounds the recursion so the
definition is structural and kernel-reducible. -/
def groupN : Nat → Nat → List Nat → List (List Nat)
  | 0, _, _ => []
  | _, _, [] => []
  | fuel + 1, n, l => l.take n :: groupN fuel n (l.drop n)

/-- Little-endian word from up to four bytes. -/
def word (bs : List Nat) : Nat := bs.foldr (fun b acc => b + 256 * acc) 0

/-- The eight little-endian bytes of the 64-bit message bit length. -/
def lenBytes (n : Nat) : List Nat := (List.range 8).map (fun i => n / 2 ^ (8 * i) % 256)

/-- MD5 padding: a 1-bit, zeros to 56 mod 64 bytes, then the bit length. -/
def padBytes (msg : List Nat) : List Nat :=
  msg ++ [0x80] ++ List.replicate ((119 - msg.length % 64) % 64) 0
      ++ lenBytes (msg.length * 8 % 2 ^ 64)

/-- The four little-endian bytes of a 32-bit word. -/
def wordBytesLE (w : Nat) : List Nat :=
  [w % 256, w / 256 % 256, w / 65536 % 256, w / 16777216 % 256]

/-- MD5 digest (16 bytes) of a byte list. -/
def md5bytes (msg : List Nat) : List Nat :=
  let padded := padBytes msg
  let init0 : Regs := ⟨0x67452301, 0xefcdab89, 0x98badcfe, 0x10325476⟩
  let final := (groupN padded.length 64 padded).foldl
    (fun r chunk => processChunk r ((groupN 16 4 chunk).map word)) init0
  wordBytesLE final.a ++ wordBytesLE final.b ++ wordBytesLE final.c ++ wordBytesLE final.d

/-- A lowercase hexadecimal digit. -/
def hexDigit (n : Nat) : Char :=
  if n < 10 then Char.ofNat (48 + n) else Char.ofNat (87 + n)

/-- Two lowercase hex characters of one byte. -/
def byteHex (b : Nat) : List Char := [hexDigit (b / 16), hexDigit (b % 16)]

/-- Lowercase hex string of a byte list, as `hexdigest()` renders it. -/
def hexdigest (bs : List Nat) : String :=
  String.mk (bs.foldr (fun b acc => byteHex b ++ acc) [])

/-- UTF-8 encoding of one code point, as Python's `str.encode()` produces. -/
def utf8Char (c : Char) : List Nat :=
  let n := c.toNat
  if n < 0x80 then [n]
  else if n < 0x800 then [0xc0 ||| (n >>> 6), 0x80 ||| (n &&& 0x3f)]
  else if n < 0x10000 then
    [0xe0 ||| (n >>> 12), 0x80 ||| ((n >>> 6) &&& 0x3f), 0x80 ||| (n &&& 0x3f)]
  else
    [0xf0 ||| (n >>> 18), 0x80 ||| ((n >>> 12) &&& 0x3f),
     0x80 ||| ((n >>> 6) &&& 0x3f), 0x80 ||| (n &&& 0x3f)]

/-- UTF-8 bytes of a string. -/
def utf8 (s : String) : List Nat := s.data.foldr (fun c acc => utf8Char c ++ acc) []

end MD5

/-- `hashlib.md5(s.encode()).hexdigest()`. -/
def md5hex (s : String) : String := MD5.hexdigest (MD5.md5bytes (MD5.utf8 s))

set_option maxRecDepth 100000

/-- RFC 1321 test vector: the MD5 of the empty string. -/
theorem md5hex_empty : md5hex "" = "d41d8cd98f00b204e9800998ecf8427e" := by rfl

/-- RFC 1321 test vector: the MD5 of "abc". -/
theorem md5hex_abc : md5hex "abc" = "900150983cd24fb0d6963f7d28e17f72" := by rfl

/-! ## File system model: an association list from path to contents -/

/-- The local file system visible to the pipeline: path ↦ contents. -/
abbrev FS := List (String × String)

/-- Contents of the file at path `p`, when it exists. -/
def FS.read : FS → String → Option String
  | [], _ => none
  | (n, c) :: fs, p => if p = n then some c else FS.read fs p

/-- Drop every entry at path `m`. -/
def FS.erase : FS → String → FS
  | [], _ => []
  | (n, c) :: fs, m => if n = m then FS.erase fs m else (n, c) :: FS.erase fs m

/-- Create or overwrite the file at path `n` with contents `c`. -/
def FS.write (fs : FS) (n c : String) : FS := (n, c) :: FS.erase fs n

/-- Delete the file at path `n` (`os.remove`). -/
def FS.remove (fs : FS) (n : String) : FS := FS.erase fs n

theorem FS.read_erase (fs : FS) (n p : String) :
    FS.read (FS.erase fs n) p = if p = n then none else FS.read fs p := by
  induction fs with
  | nil => simp [FS.erase, FS.read]
  | cons hd tl ih =>
    obtain ⟨m, c⟩ := hd
    by_cases hmn : m = n
    · subst hmn
      by_cases hpm : p = m
      · subst hpm; simp [FS.erase, FS.read, ih]
      · simp [FS.erase, FS.read, ih, hpm]
    · by_cases hpm : p = m
      · subst hpm
        simp [FS.erase, FS.read, hmn]
      · simp [FS.erase, FS.read, hmn, hpm, ih]

theorem FS.read_write (fs : FS) (n c p : String) :
    FS.read (FS.write fs n c) p = if p = n then some c else FS.read fs p := by
  by_cases h : p = n <;> simp [FS.write, FS.read, h, FS.read_erase]

/-! ## The pipeline state, environment of external services, and errors -/

/-- One request to the OpenAI chat completion API: the model name, the fixed
system instruction, the user content, the sampling temperature and the
`max_tokens` bound (`openai.ChatCompletion.create` call sites). -/
structure ChatRequest where
  model : String
  system : String
  user : String
  temperature : ℚ
  maxTokens : Nat
deriving DecidableEq

/-- Python exceptions observable in the pipeline.  `audioTooLong` carries the
measured and the allowed duration, exactly the two values interpolated into
the `ValueError` message at `neuro_secretary2.py:48`; `emptyAudio` is the
`ValueError("Пустой аудиофайл")` of line 35. -/
inductive Err where
  | emptyAudio
  | audioTooLong (measured : ℚ) (allowed : Nat)
  | io (detail : String)
  | service (detail : String)
  | telegram (detail : String)
deriving DecidableEq

/-- The message text of an exception, as interpolated into log lines. -/
def errMsg : Err → String
  | .emptyAudio => "Пустой аудиофайл"
  | .audioTooLong m a => "Аудио слишком длинное (" ++ toString m ++ "s > " ++ toString a ++ "s)"
  | .io d => d
  | .service d => d
  | .telegram d => d

/-- External collaborators of one request, as oracle functions: the audio
libraries (`soundfile`, `noisereduce`, `whisper`), the OpenAI API, and the
Telegram transport.  Audio file contents are byte strings. -/
structure Env where
  /-- `sf.read`: decode file contents to a sample buffer and a sample rate. -/
  sfRead : String → Except String (List Int × Nat)
  /-- `nr.reduce_noise` on a buffer at a given rate. -/
  reduceNoise : List Int → Nat → List Int
  /-- `sf.write`: encode a buffer at a rate back to file contents. -/
  sfWrite : List Int → Nat → String
  /-- `sf.info(...).duration`, in seconds. -/
  sfInfo : String → Except String ℚ
  /-- `WHISPER_MODEL.transcribe` on file contents, yielding `result["text"]`. -/
  whisperTranscribe : String → Except String String
  /-- `openai.ChatCompletion.create`, yielding the reply content. -/
  llm : ChatRequest → Except String String
  /-- `update.message.audio.get_file()` + `download_to_drive`: the downloaded
  contents, or the exception either step raises. -/
  downloadAudio : Except String String
  /-- `file.file_id` of the inbound attachment. -/
  fileId : String
  /-- the sender, for the info log line. -/
  username : String
  /-- `update.message.reply_text msg`: whether sending succeeds. -/
  replySend : String → Except String Unit

/-- Observable process state threaded through the pipeline: the local files,
the log lines emitted, every LLM request issued, the number of
`WHISPER_MODEL.transcribe` calls, of `nr.reduce_noise` calls and of
`whisper.load_model` calls, and the messages delivered to the user. -/
structure St where
  fs : FS
  log : List String
  llmLog : List ChatRequest
  whisperCalls : Nat
  nrCalls : Nat
  modelLoads : Nat
  sent : List String

/-- The process state at interpreter start, before module-level code runs. -/
def St.empty : St := ⟨[], [], [], 0, 0, 0, []⟩

/-- Log an exception with its stage context and re-raise it — the
`except Exception as e: logger.error(...); raise` idiom of every stage. -/
def fail {α : Type} (st : St) (ctx : String) (e : Err) : St × Except Err α :=
  ({ st with log := st.log ++ [ctx ++ errMsg e] }, .error e)

/-! ## neuro_secretary2.py, stage by stage -/

/-- `GPT_MODEL` (line 27). -/
def GPT_MODEL : String := "gpt-4-turbo-preview"

/-- `MAX_AUDIO_DURATION = 60 * 60 * 2` seconds (line 28). -/
def MAX_AUDIO_DURATION : Nat := 60 * 60 * 2

/-- Module-level `WHISPER_MODEL = whisper.load_model("base")` (line 26):
one model load performed at process start. -/
def processStart (st : St) : St := { st with modelLoads := st.modelLoads + 1 }

/-- `clean_audio` (lines 30–41): read the input file, reject an empty sample
buffer, denoise, write the cleaned buffer to the output path; log and
re-raise on failure. -/
def clean_audio (env : Env) (st : St) (input_file output_file : String) :
    St × Except Err Unit :=
  match FS.read st.fs input_file with
  | none => fail st "Ошибка очистки аудио: " (.io ("файл не найден: " ++ input_file))
  | some content =>
    match env.sfRead content with
    | .error e => fail st "Ошибка очистки аудио: " (.io e)
    | .ok (data, rate) =>
      if data.length = 0 then
        fail st "Ошибка очистки аудио: " .emptyAudio
      else
        let st := { st with nrCalls := st.nrCalls + 1 }
        let reduced := env.reduceNoise data rate
        ({ st with fs := FS.write st.fs output_file (env.sfWrite reduced rate) }, .ok ())

/-- `transcribe_audio` (lines 43–54): measure the duration, reject it above
`MAX_AUDIO_DURATION`, otherwise run whisper inference; log and re-raise on
failure. -/
def transcribe_audio (env : Env) (st : St) (audio_file : String) :
    St × Except Err String :=
  match FS.read st.fs audio_file with
  | none => fail st "Ошибка транскрибации: " (.io ("файл не найден: " ++ audio_file))
  | some content =>
    match env.sfInfo content with
    | .error e => fail st "Ошибка транскрибации: " (.io e)
    | .ok duration =>
      if duration > (MAX_AUDIO_DURATION : ℚ) then
        fail st "Ошибка транскрибации: " (.audioTooLong duration MAX_AUDIO_DURATION)
      else
        let st := { st with whisperCalls := st.whisperCalls + 1 }
        match env.whisperTranscribe content with
        | .error e => fail st "Ошибка транскрибации: " (.io e)
        | .ok text => (st, .ok text)

/-- The fixed system instruction of the analysis call (line 62). -/
def ANALYZE_SYSTEM : String :=
  "Проанализируй текст совещания. Выдели участников, вопросы, решения и ответственных."

/-- The fixed system instruction of the protocol call (line 90). -/
def PROTOCOL_SYSTEM : String :=
  "Создай протокол совещания на основе предоставленных данных."

/-- The exact completion request `analyze_text` issues (lines 59–67). -/
def analyzeRequest (text : String) : ChatRequest :=
  ⟨GPT_MODEL, ANALYZE_SYSTEM, text, 1 / 5, 3000⟩

/-- The exact completion request `generate_protocol` issues (lines 87–95). -/
def protocolRequest (analysis_result : String) : ChatRequest :=
  ⟨GPT_MODEL, PROTOCOL_SYSTEM, analysis_result, 1 / 2, 3000⟩

/-- `analyze_text` (lines 56–71): one completion call; log and re-raise API
errors. -/
def analyze_text (env : Env) (st : St) (text : String) : St × Except Err String :=
  let req := analyzeRequest text
  let st := { st with llmLog := st.llmLog ++ [req] }
  match env.llm req with
  | .error e => fail st "Ошибка анализа текста: " (.service e)
  | .ok content => (st, .ok content)

/-- The digest-derived cache path `os.path.join("cache", md5hex + ".txt")`
(lines 79–80). -/
def cache_file (analysis_result : String) : String :=
  "cache/" ++ md5hex analysis_result ++ ".txt"

/-- `generate_protocol` (lines 73–104): return the cache entry verbatim when
one exists at the digest-derived path; otherwise one completion call, whose
result is persisted under that path before being returned. -/
def generate_protocol (env : Env) (st : St) (analysis_result : String) :
    St × Except Err String :=
  match FS.read st.fs (cache_file analysis_result) with
  | some cached => (st, .ok cached)
  | none =>
    let req := protocolRequest analysis_result
    let st := { st with llmLog := st.llmLog ++ [req] }
    match env.llm req with
    | .error e => fail st "Ошибка генерации протокола: " (.service e)
    | .ok result =>
      ({ st with fs := FS.write st.fs (cache_file analysis_result) result }, .ok result)

/-- The per-request temp path `f"temp_{md5(file_id)}.wav"` (lines 113–114). -/
def input_file_name (fileId : String) : String :=
  "temp_" ++ md5hex fileId ++ ".wav"

/-- The success reply text (lines 127–130). -/
def successMsg (protocol : String) : String :=
  "✅ Протокол успешно сгенерирован:\n\n" ++ protocol

/-- The fixed generic failure notice (line 137). -/
def FAILURE_NOTICE : String :=
  "❌ Произошла ошибка при обработке файла. Пожалуйста, попробуйте позже."

/-- Lines 119–124 of `handle_audio`: clean the downloaded file in place,
transcribe it, analyze the transcript, generate the protocol; the first
stage exception aborts the rest. -/
def process_audio (env : Env) (st : St) (input_file : String) : St × Except Err String :=
  match clean_audio env st input_file input_file with
  | (st, .error e) => (st, .error e)
  | (st, .ok ()) =>
    match transcribe_audio env st input_file with
    | (st, .error e) => (st, .error e)
    | (st, .ok transcript) =>
      match analyze_text env st transcript with
      | (st, .error e) => (st, .error e)
      | (st, .ok analysis) => generate_protocol env st analysis

/-- Lines 116–133 of `handle_audio`, after a successful download landed
`content` in the temp file: process the audio, send the success reply, then
remove the temp file. -/
def after_download (env : Env) (st : St) (content : String) : St × Except Err Unit :=
  let input_file := input_file_name env.fileId
  let st := { st with fs := FS.write st.fs input_file content }
  match process_audio env st input_file with
  | (st, .error e) => (st, .error e)
  | (st, .ok protocol) =>
    match env.replySend (successMsg protocol) with
    | .error e => (st, .error (.telegram e))
    | .ok () =>
      let st := { st with sent := st.sent ++ [successMsg protocol] }
      ({ st with fs := FS.remove st.fs input_file }, .ok ())

/-- The body of `handle_audio`'s `try` block (lines 108–133): log the inbound
audio, download the attachment to the digest-named temp path, then run the
rest of the pipeline. -/
def handle_audio_try (env : Env) (st : St) : St × Except Err Unit :=
  let st := { st with log := st.log ++ ["Получено аудио от " ++ env.username] }
  match env.downloadAudio with
  | .error e => (st, .error (.telegram e))
  | .ok content => after_download env st content

/-- `handle_audio` (lines 106–137): the `try` body, with any propagated
exception logged and converted into the generic failure notice.  The reply
inside the `except` block is itself a Telegram call; when it fails, that
exception leaves `handle_audio`. -/
def handle_audio (env : Env) (st : St) : St × Except Err Unit :=
  let r := handle_audio_try env st
  match r.2 with
  | .ok _ => (r.1, .ok ())
  | .error e =>
    let st := { r.1 with log := r.1.log ++ ["Ошибка обработки: " ++ errMsg e] }
    match env.replySend FAILURE_NOTICE with
    | .error e2 => (st, .error (.telegram e2))
    | .ok _ => ({ st with sent := st.sent ++ [FAILURE_NOTICE] }, .ok ())

/-! ## neuro_secretary.py (the earlier variant), where a claim refers to it -/

namespace NS1

/-- `transcribe_audio` of `neuro_secretary.py` (lines 29–32): it calls
`whisper.load_model(WHISPER_MODEL)` anew on every invocation, then runs
inference; there is no duration check and no logging. -/
def transcribe_audio (env : Env) (st : St) (audio_file : String) :
    St × Except Err String :=
  let st := { st with modelLoads := st.modelLoads + 1 }
  match FS.read st.fs audio_file with
  | none => (st, .error (.io ("файл не найден: " ++ audio_file)))
  | some content =>
    let st := { st with whisperCalls := st.whisperCalls + 1 }
    match env.whisperTranscribe content with
    | .error e => (st, .error (.io e))
    | .ok text => (st, .ok text)

end NS1

/-! ## Concrete environments used by witnesses and counterexamples -/

/-- A degenerate environment every concrete witness below starts from. -/
def env0 : Env :=
  { sfRead := fun _ => .error "нет декодера"
    reduceNoise := fun data _ => data
    sfWrite := fun _ _ => "CLEANED"
    sfInfo := fun _ => .error "нет информации"
    whisperTranscribe := fun _ => .error "нет модели"
    llm := fun _ => .error "нет сети"
    downloadAudio := .error "нет файла"
    fileId := "FILE1"
    username := "alex"
    replySend := fun _ => .ok () }

/-! ## C1: cache idempotence of `generate_protocol` -/

/-- C1: for every AnalysisResult text, once `generate_protocol` has returned
successfully for that text, a second call with the same text — under any
later service behaviour `env2` — returns byte-identical output, leaves the
state untouched, and issues no LLM request at all. -/
theorem protocol_cache_idempotent (env env2 : Env) (st : St) (a p : String)
    (h : (generate_protocol env st a).2 = .ok p) :
    generate_protocol env2 (generate_protocol env st a).1 a
      = ((generate_protocol env st a).1, .ok p) ∧
    (generate_protocol env2 (generate_protocol env st a).1 a).1.llmLog
      = (generate_protocol env st a).1.llmLog := by
  have key : FS.read (generate_protocol env st a).1.fs (cache_file a) = some p := by
    unfold generate_protocol at h ⊢
    cases hc : FS.read st.fs (cache_file a) with
    | some cached =>
      simp [hc] at h ⊢
      exact h
    | none =>
      simp [hc] at h ⊢
      cases hl : env.llm (protocolRequest a) with
      | error e => simp [hl, fail] at h
      | ok r =>
        simp [hl, FS.read_write] at h ⊢
        exact h
  have h2 : generate_protocol env2 (generate_protocol env st a).1 a
      = ((generate_protocol env st a).1, .ok p) := by
    conv_lhs => rw [generate_protocol]
    simp [key]
  exact ⟨h2, by rw [h2]⟩

def envC1 : Env := { env0 with llm := fun _ => .ok "Протокол" }

/-- Witness for C1: a first run populates the cache; a second run against a
dead network service still returns the identical protocol. -/
theorem protocol_cache_idempotent_witness :
    generate_protocol env0 (generate_protocol envC1 St.empty "анализ").1 "анализ"
      = ((generate_protocol envC1 St.empty "анализ").1, .ok "Протокол") :=
  (protocol_cache_idempotent envC1 env0 St.empty "анализ" "Протокол" (by rfl)).1

/-! ## C2: the duration ceiling in `transcribe_audio` -/

/-- C2: a measured duration at most `MAX_AUDIO_DURATION` (7200 s, the bound
included) is accepted and inference runs; a duration beyond it raises the
too-long error carrying the measured and the allowed duration, and no
transcription is attempted. -/
theorem transcribe_duration_boundary (env : Env) (st : St) (f content : String) (d : ℚ)
    (hf : FS.read st.fs f = some content) (hi : env.sfInfo content = .ok d) :
    (d ≤ (MAX_AUDIO_DURATION : ℚ) →
      (transcribe_audio env st f).1.whisperCalls = st.whisperCalls + 1 ∧
      ∀ t, env.whisperTranscribe content = .ok t → (transcribe_audio env st f).2 = .ok t) ∧
    ((MAX_AUDIO_DURATION : ℚ) < d →
      transcribe_audio env st f
        = fail st "Ошибка транскрибации: " (.audioTooLong d MAX_AUDIO_DURATION) ∧
      (transcribe_audio env st f).1.whisperCalls = st.whisperCalls) := by
  constructor
  · intro hle
    unfold transcribe_audio
    simp [hf, hi, if_neg (not_lt.mpr hle)]
    cases hw : env.whisperTranscribe content with
    | error e => simp [hw, fail]
    | ok t => simp [hw]
  · intro hlt
    have heq : transcribe_audio env st f
        = fail st "Ошибка транскрибации: " (.audioTooLong d MAX_AUDIO_DURATION) := by
      unfold transcribe_audio
      simp [hf, hi, if_pos hlt]
    exact ⟨heq, by rw [heq]; rfl⟩

def envC2 : Env :=
  { env0 with
    sfInfo := fun _ => .ok 7200
    whisperTranscribe := fun _ => .ok "расшифровка" }

def stC2 : St := { St.empty with fs := [("встреча.wav", "АУДИО")] }

/-- Witness for C2: a file measured at exactly 7200 s is accepted and
transcribed. -/
theorem transcribe_duration_boundary_witness :
    (transcribe_audio envC2 stC2 "встреча.wav").1.whisperCalls = 1 ∧
    (transcribe_audio envC2 stC2 "встреча.wav").2 = .ok "расшифровка" := by
  have h := (transcribe_duration_boundary envC2 stC2 "встреча.wav" "АУДИО" 7200
    (by rfl) (by rfl)).1 (by norm_num [MAX_AUDIO_DURATION])
  exact ⟨by rw [h.1]; rfl, h.2 "расшифровка" rfl⟩

/-! ## C3: empty-audio rejection in `clean_audio` -/

/-- C3: a file decoding to a zero-length sample buffer makes `clean_audio`
raise the empty-audio error before the noise-reduction transform runs and
before anything is written; inside `handle_audio` no transcription is ever
attempted for such a file.  A file decoding to a non-empty buffer never
triggers this error. -/
theorem clean_audio_empty_rejection (env : Env) (st : St) (i o content : String)
    (hf : FS.read st.fs i = some content) :
    (∀ rate, env.sfRead content = .ok ([], rate) →
      clean_audio env st i o = fail st "Ошибка очистки аудио: " Err.emptyAudio ∧
      (clean_audio env st i o).1.fs = st.fs ∧
      (clean_audio env st i o).1.nrCalls = st.nrCalls ∧
      (clean_audio env st i o).1.whisperCalls = st.whisperCalls) ∧
    (∀ data rate, env.sfRead content = .ok (data, rate) → data ≠ [] →
      (clean_audio env st i o).2 ≠ .error Err.emptyAudio) ∧
    (∀ c rate, env.downloadAudio = .ok c → env.sfRead c = .ok ([], rate) →
      (handle_audio env st).1.whisperCalls = st.whisperCalls ∧
      (handle_audio_try env st).2 = .error Err.emptyAudio) := by
  refine ⟨fun rate hr => ?_, fun data rate hr hne => ?_, fun c rate hdl hrd => ?_⟩
  · have heq : clean_audio env st i o = fail st "Ошибка очистки аудио: " Err.emptyAudio := by
      unfold clean_audio
      simp [hf, hr]
    exact ⟨heq, by rw [heq]; rfl, by rw [heq]; rfl, by rw [heq]; rfl⟩
  · unfold clean_audio
    simp [hf, hr, hne]
  · have htry : handle_audio_try env st
        = fail { st with
            log := st.log ++ ["Получено аудио от " ++ env.username],
            fs := FS.write st.fs (input_file_name env.fileId) c }
          "Ошибка очистки аудио: " Err.emptyAudio := by
      unfold handle_audio_try after_download process_audio
      simp only [hdl]
      unfold clean_audio
      simp [FS.read_write, hrd, fail]
    constructor
    · unfold handle_audio
      rw [htry]
      cases hs : env.replySend FAILURE_NOTICE <;> simp [fail, hs]
    · rw [htry]
      rfl

def envC3 : Env := { env0 with sfRead := fun _ => .ok ([], 44100) }

def stC3 : St := { St.empty with fs := [("тишина.wav", "ПУСТО")] }

/-- Witness for C3: a file decoding to zero samples is rejected with the
empty-audio error and nothing is written or denoised. -/
theorem clean_audio_empty_rejection_witness :
    (clean_audio envC3 stC3 "тишина.wav" "тишина.wav").2 = .error Err.emptyAudio ∧
    (clean_audio envC3 stC3 "тишина.wav" "тишина.wav").1.fs = stC3.fs ∧
    (clean_audio envC3 stC3 "тишина.wav" "тишина.wav").1.nrCalls = 0 := by
  have h := ((clean_audio_empty_rejection envC3 stC3 "тишина.wav" "тишина.wav" "ПУСТО"
    (by rfl)).1 44100 (by rfl))
  exact ⟨by rw [h.1]; rfl, h.2.1, by rw [h.2.2.1]; rfl⟩

/-! ## C8: model loading, once per process vs. per call -/

/-- C8 counterexample: in `neuro_secretary.py` the process has already
performed its startup model load, yet a single `transcribe_audio` call
performs another one — two loads in one process, refuting the claim for that
entry point. -/
theorem model_load_counterexample :
    (NS1.transcribe_audio env0 (processStart St.empty) "a.wav").1.modelLoads = 2 := by rfl

/-- C8 amended: in `neuro_secretary2.py` the model is loaded exactly once, at
process start, and `transcribe_audio` never loads it again; in the earlier
`neuro_secretary.py` every `transcribe_audio` call performs a fresh load. -/
theorem single_model_load_amended (env : Env) (st : St) (f : String) :
    (processStart St.empty).modelLoads = 1 ∧
    (processStart st).modelLoads = st.modelLoads + 1 ∧
    (transcribe_audio env st f).1.modelLoads = st.modelLoads ∧
    (NS1.transcribe_audio env st f).1.modelLoads = st.modelLoads + 1 := by
  refine ⟨rfl, rfl, ?_, ?_⟩
  · unfold transcribe_audio fail
    dsimp only
    split
    · rfl
    · split
      · rfl
      · split
        · rfl
        · split <;> rfl
  · unfold NS1.transcribe_audio
    dsimp only
    split
    · rfl
    · split <;> rfl

/-! ## C9: determinism and sensitivity of the cache key -/

/-- C9: the cache file name is a deterministic function of the analysis text
alone — the `.txt`-suffixed hex MD5 digest inside the cache directory; two
texts can share a name only by colliding in MD5 itself (the claim's own
"MD5-equivalent strength" baseline); concretely, two analyses differing in a
single character map to different names. -/
theorem cache_key_sensitivity :
    (∀ s : String, cache_file s = "cache/" ++ (md5hex s ++ ".txt")) ∧
    (∀ s t : String, cache_file s = cache_file t → md5hex s = md5hex t) ∧
    cache_file "analysis A" ≠ cache_file "analysis B" := by
  refine ⟨fun s => ?_, fun s t h => ?_, by decide⟩
  · refine String.ext ?_
    show ("cache/".data ++ (md5hex s).data) ++ ".txt".data
        = "cache/".data ++ ((md5hex s).data ++ ".txt".data)
    exact List.append_assoc _ _ _
  · have h1 : ("cache/".data ++ (md5hex s).data) ++ ".txt".data
        = ("cache/".data ++ (md5hex t).data) ++ ".txt".data := congrArg String.data h
    have h2 : (md5hex s).data ++ ".txt".data = (md5hex t).data ++ ".txt".data :=
      List.append_cancel_left (by simpa only [List.append_assoc] using h1)
    exact String.ext (List.append_cancel_right h2)

/-- Witness for C9: the hypothesis-bearing part applied at a concrete pair,
together with the concrete single-character sensitivity instance. -/
theorem cache_key_sensitivity_witness :
    md5hex "протокол" = md5hex "протокол" ∧
    cache_file "analysis A" ≠ cache_file "analysis B" :=
  ⟨cache_key_sensitivity.2.1 "протокол" "протокол" rfl, cache_key_sensitivity.2.2⟩

/-! ## Effect lemmas shared by the global handler claims -/

theorem cache_file_eq (s : String) : cache_file s = "cache/" ++ (md5hex s ++ ".txt") := by
  refine String.ext ?_
  show ("cache/".data ++ (md5hex s).data) ++ ".txt".data
      = "cache/".data ++ ((md5hex s).data ++ ".txt".data)
  exact List.append_assoc _ _ _

theorem input_file_ne_cache (f s : String) : input_file_name f ≠ "cache/" ++ s := by
  intro h
  have h1 : ('t' : Char) :: (('e' :: 'm' :: 'p' :: '_' :: (md5hex f).data) ++ ".wav".data)
      = 'c' :: ("ache/".data ++ s.data) := congrArg String.data h
  simp at h1

theorem clean_audio_effects (env : Env) (st : St) (i o : String) :
    (clean_audio env st i o).1.sent = st.sent ∧
    (clean_audio env st i o).1.llmLog = st.llmLog ∧
    (clean_audio env st i o).1.whisperCalls = st.whisperCalls ∧
    ((clean_audio env st i o).2 = .ok () →
      ∃ c, (clean_audio env st i o).1.fs = FS.write st.fs o c) ∧
    (∀ e, (clean_audio env st i o).2 = .error e → (clean_audio env st i o).1.fs = st.fs) := by
  unfold clean_audio fail
  dsimp only
  split
  · refine ⟨rfl, rfl, rfl, fun h => ?_, fun e he => rfl⟩
    exact absurd h (by simp)
  · split
    · refine ⟨rfl, rfl, rfl, fun h => ?_, fun e he => rfl⟩
      exact absurd h (by simp)
    · split
      · refine ⟨rfl, rfl, rfl, fun h => ?_, fun e he => rfl⟩
        exact absurd h (by simp)
      · refine ⟨rfl, rfl, rfl, fun _ => ⟨_, rfl⟩, fun e he => ?_⟩
        exact absurd he (by simp)

theorem transcribe_audio_effects (env : Env) (st : St) (f : String) :
    (transcribe_audio env st f).1.sent = st.sent ∧
    (transcribe_audio env st f).1.llmLog = st.llmLog ∧
    (transcribe_audio env st f).1.fs = st.fs := by
  unfold transcribe_audio fail
  dsimp only
  split
  · exact ⟨rfl, rfl, rfl⟩
  · split
    · exact ⟨rfl, rfl, rfl⟩
    · split
      · exact ⟨rfl, rfl, rfl⟩
      · split <;> exact ⟨rfl, rfl, rfl⟩

theorem analyze_text_effects (env : Env) (st : St) (text : String) :
    (analyze_text env st text).1.sent = st.sent ∧
    (analyze_text env st text).1.fs = st.fs ∧
    (analyze_text env st text).1.llmLog = st.llmLog ++ [analyzeRequest text] := by
  unfold analyze_text fail
  dsimp only
  split <;> exact ⟨rfl, rfl, rfl⟩

theorem generate_protocol_effects (env : Env) (st : St) (a : String) :
    (generate_protocol env st a).1.sent = st.sent ∧
    (∀ p, (∀ s, p ≠ "cache/" ++ s) →
      FS.read (generate_protocol env st a).1.fs p = FS.read st.fs p) := by
  unfold generate_protocol fail
  dsimp only
  split
  · exact ⟨rfl, fun p _ => rfl⟩
  · split
    · exact ⟨rfl, fun p _ => rfl⟩
    · refine ⟨rfl, fun p hp => ?_⟩
      rw [FS.read_write, if_neg (fun heq => hp (md5hex a ++ ".txt") (heq.trans (cache_file_eq a)))]

theorem process_audio_spec (env : Env) (st : St) (i : String) :
    (process_audio env st i).1.sent = st.sent ∧
    (∀ p, p ≠ i → (∀ s, p ≠ "cache/" ++ s) →
      FS.read (process_audio env st i).1.fs p = FS.read st.fs p) ∧
    ((∀ s, i ≠ "cache/" ++ s) → ∀ c, FS.read st.fs i = some c →
      ∃ c2, FS.read (process_audio env st i).1.fs i = some c2) := by
  unfold process_audio
  rcases hcl : clean_audio env st i i with ⟨st1, r1⟩
  have hce := clean_audio_effects env st i i
  rw [hcl] at hce
  dsimp only at hce
  cases r1 with
  | error e =>
    dsimp only
    have hfs : st1.fs = st.fs := hce.2.2.2.2 e rfl
    exact ⟨hce.1, fun p hp _ => by rw [hfs], fun _ c hc => ⟨c, by rw [hfs]; exact hc⟩⟩
  | ok u =>
    cases u
    dsimp only
    obtain ⟨c1, hc1⟩ := hce.2.2.2.1 rfl
    rcases htr : transcribe_audio env st1 i with ⟨st2, r2⟩
    have hte := transcribe_audio_effects env st1 i
    rw [htr] at hte
    dsimp only at hte
    cases r2 with
    | error e =>
      dsimp only
      refine ⟨hte.1.trans hce.1, fun p hp _ => ?_, fun _ c hc => ?_⟩
      · rw [hte.2.2, hc1, FS.read_write, if_neg hp]
      · exact ⟨c1, by rw [hte.2.2, hc1, FS.read_write, if_pos rfl]⟩
    | ok transcript =>
      dsimp only
      rcases han : analyze_text env st2 transcript with ⟨st3, r3⟩
      have hae := analyze_text_effects env st2 transcript
      rw [han] at hae
      dsimp only at hae
      cases r3 with
      | error e =>
        dsimp only
        refine ⟨(hae.1.trans hte.1).trans hce.1, fun p hp _ => ?_, fun _ c hc => ?_⟩
        · rw [hae.2.1, hte.2.2, hc1, FS.read_write, if_neg hp]
        · exact ⟨c1, by rw [hae.2.1, hte.2.2, hc1, FS.read_write, if_pos rfl]⟩
      | ok analysis =>
        dsimp only
        have hge := generate_protocol_effects env st3 analysis
        refine ⟨hge.1.trans ((hae.1.trans hte.1).trans hce.1), fun p hp hpc => ?_,
          fun hic c hc => ?_⟩
        · rw [hge.2 p hpc, hae.2.1, hte.2.2, hc1, FS.read_write, if_neg hp]
        · exact ⟨c1, by rw [hge.2 i hic, hae.2.1, hte.2.2, hc1, FS.read_write, if_pos rfl]⟩

theorem after_download_spec (env : Env) (st : St) (content : String) :
    ((∃ p, (after_download env st content).2 = .ok () ∧
        (after_download env st content).1.sent = st.sent ++ [successMsg p] ∧
        FS.read (after_download env st content).1.fs (input_file_name env.fileId) = none)
     ∨ (∃ e, (after_download env st content).2 = .error e ∧
        (after_download env st content).1.sent = st.sent ∧
        ∃ c2, FS.read (after_download env st content).1.fs (input_file_name env.fileId)
          = some c2)) ∧
    (∀ p, p ≠ input_file_name env.fileId → (∀ s, p ≠ "cache/" ++ s) →
      FS.read (after_download env st content).1.fs p = FS.read st.fs p) := by
  unfold after_download
  dsimp only
  rcases hpa : process_audio env
      { st with fs := FS.write st.fs (input_file_name env.fileId) content }
      (input_file_name env.fileId) with ⟨st2, r2⟩
  have hps := process_audio_spec env
    { st with fs := FS.write st.fs (input_file_name env.fileId) content }
    (input_file_name env.fileId)
  rw [hpa] at hps
  dsimp only at hps
  have hpres : ∃ c2, FS.read st2.fs (input_file_name env.fileId) = some c2 :=
    hps.2.2 (input_file_ne_cache env.fileId) content (by rw [FS.read_write, if_pos rfl])
  have hframe : ∀ p, p ≠ input_file_name env.fileId → (∀ s, p ≠ "cache/" ++ s) →
      FS.read st2.fs p = FS.read st.fs p := by
    intro p hp hpc
    rw [hps.2.1 p hp hpc, FS.read_write, if_neg hp]
  cases r2 with
  | error e =>
    dsimp only
    exact ⟨Or.inr ⟨e, rfl, hps.1, hpres⟩, hframe⟩
  | ok protocol =>
    dsimp only
    cases hrs : env.replySend (successMsg protocol) with
    | error e =>
      dsimp only
      exact ⟨Or.inr ⟨.telegram e, rfl, hps.1, hpres⟩, hframe⟩
    | ok u =>
      cases u
      dsimp only
      refine ⟨Or.inl ⟨protocol, rfl, by rw [hps.1], ?_⟩, fun p hp hpc => ?_⟩
      · show FS.read (FS.remove st2.fs (input_file_name env.fileId))
          (input_file_name env.fileId) = none
        rw [FS.remove, FS.read_erase, if_pos rfl]
      · show FS.read (FS.remove st2.fs (input_file_name env.fileId)) p = FS.read st.fs p
        rw [FS.remove, FS.read_erase, if_neg hp]
        exact hframe p hp hpc

theorem handle_try_spec (env : Env) (st : St) :
    ((∃ p, (handle_audio_try env st).2 = .ok () ∧
        (handle_audio_try env st).1.sent = st.sent ++ [successMsg p] ∧
        FS.read (handle_audio_try env st).1.fs (input_file_name env.fileId) = none)
     ∨ (∃ e, (handle_audio_try env st).2 = .error e ∧
        (handle_audio_try env st).1.sent = st.sent ∧
        (∀ c, env.downloadAudio = .ok c →
          ∃ c2, FS.read (handle_audio_try env st).1.fs (input_file_name env.fileId)
            = some c2))) ∧
    (∀ p, p ≠ input_file_name env.fileId → (∀ s, p ≠ "cache/" ++ s) →
      FS.read (handle_audio_try env st).1.fs p = FS.read st.fs p) := by
  unfold handle_audio_try
  dsimp only
  cases hdl : env.downloadAudio with
  | error e =>
    dsimp only
    exact ⟨Or.inr ⟨.telegram e, rfl, rfl, fun c hc => nomatch hc⟩, fun p _ _ => rfl⟩
  | ok content =>
    dsimp only
    have had := after_download_spec env
      { st with log := st.log ++ ["Получено аудио от " ++ env.username] } content
    rcases had with ⟨hcases, hframe⟩
    refine ⟨?_, fun p hp hpc => hframe p hp hpc⟩
    rcases hcases with ⟨p, h1, h2, h3⟩ | ⟨e, h1, h2, h3⟩
    · exact Or.inl ⟨p, h1, h2, h3⟩
    · exact Or.inr ⟨e, h1, h2, fun c _ => h3⟩

theorem handle_audio_fail_effects (env : Env) (st : St) (e : Err)
    (h : (handle_audio_try env st).2 = .error e) :
    (handle_audio env st).1.fs = (handle_audio_try env st).1.fs ∧
    (handle_audio env st).1.log
      = (handle_audio_try env st).1.log ++ ["Ошибка обработки: " ++ errMsg e] ∧
    (handle_audio env st).1.llmLog = (handle_audio_try env st).1.llmLog ∧
    (env.replySend FAILURE_NOTICE = .ok () →
      (handle_audio env st).1.sent = (handle_audio_try env st).1.sent ++ [FAILURE_NOTICE] ∧
      (handle_audio env st).2 = .ok ()) := by
  unfold handle_audio
  dsimp only
  rw [h]
  dsimp only
  cases hrs : env.replySend FAILURE_NOTICE with
  | error e2 =>
    dsimp only
    exact ⟨rfl, rfl, rfl, fun hok => absurd hok (by simp)⟩
  | ok u =>
    cases u
    dsimp only
    exact ⟨rfl, rfl, rfl, fun _ => ⟨rfl, rfl⟩⟩

theorem handle_audio_ok_state (env : Env) (st : St)
    (h : (handle_audio_try env st).2 = .ok ()) :
    handle_audio env st = ((handle_audio_try env st).1, .ok ()) := by
  unfold handle_audio
  dsimp only
  rw [h]

/-! ## C4: delivery or a logged error; the non-emptiness part fails -/

def envC4 : Env :=
  { env0 with
    downloadAudio := .ok "СЫРОЕ_АУДИО"
    sfRead := fun _ => .ok ([1, 2], 16000)
    sfInfo := fun _ => .ok 300
    whisperTranscribe := fun _ => .ok "обсуждение"
    llm := fun _ => .ok "" }

/-- C4 counterexample: with a non-empty audio input under the ceiling and an
LLM that replies with the empty string, the run completes successfully while
the delivered and cached ProtocolDocument is empty — the code never checks
the protocol for non-emptiness. -/
theorem no_silent_empty_counterexample :
    (handle_audio envC4 St.empty).2 = .ok () ∧
    (handle_audio envC4 St.empty).1.sent = [successMsg ""] ∧
    FS.read (handle_audio envC4 St.empty).1.fs (cache_file "") = some "" :=
  ⟨by rfl, by rfl, by rfl⟩

/-- C4 amended: a full pipeline run either delivers exactly the generator's
ProtocolDocument (with no non-emptiness guarantee) to the user, or terminates
with an error that is logged by the outermost handler. -/
theorem pipeline_delivery_or_logged_error (env : Env) (st : St) :
    ((handle_audio_try env st).2 = .ok () →
      ∃ p, (handle_audio_try env st).1.sent = st.sent ++ [successMsg p]) ∧
    (∀ e, (handle_audio_try env st).2 = .error e →
      ("Ошибка обработки: " ++ errMsg e) ∈ (handle_audio env st).1.log) := by
  constructor
  · intro hok
    rcases (handle_try_spec env st).1 with ⟨p, _, hsent, _⟩ | ⟨e, herr, _, _⟩
    · exact ⟨p, hsent⟩
    · rw [hok] at herr
      exact absurd herr (by simp)
  · intro e he
    have hfe := handle_audio_fail_effects env st e he
    rw [hfe.2.1]
    simp

/-- Witness for the amended C4: a failing download is converted into a logged
handler error. -/
theorem pipeline_delivery_or_logged_error_witness :
    ("Ошибка обработки: " ++ errMsg (Err.telegram "нет файла"))
      ∈ (handle_audio env0 St.empty).1.log :=
  (pipeline_delivery_or_logged_error env0 St.empty).2 (.telegram "нет файла") (by rfl)

/-! ## C5: atomicity of an analysis-stage LLM failure -/

/-- C5: when the analysis-stage LLM call fails (for instance with an
authentication error), the user receives the generic failure notice, no
protocol request is ever issued (the request log grows by the analysis
request only), no file outside the temp file — in particular no cache entry —
is created or modified, and both the stage error and the handler error are
logged with the service failure detail. -/
theorem analysis_failure_atomic (env : Env) (st : St) (c : String) (data : List Int)
    (rate : Nat) (d : ℚ) (t detail : String)
    (hdl : env.downloadAudio = .ok c)
    (hrd : env.sfRead c = .ok (data, rate))
    (hne : data ≠ [])
    (hinfo : env.sfInfo (env.sfWrite (env.reduceNoise data rate) rate) = .ok d)
    (hd : d ≤ (MAX_AUDIO_DURATION : ℚ))
    (hw : env.whisperTranscribe (env.sfWrite (env.reduceNoise data rate) rate) = .ok t)
    (hllm : env.llm (analyzeRequest t) = .error detail)
    (hsend : env.replySend FAILURE_NOTICE = .ok ()) :
    (handle_audio env st).2 = .ok () ∧
    (handle_audio env st).1.sent = st.sent ++ [FAILURE_NOTICE] ∧
    (handle_audio env st).1.llmLog = st.llmLog ++ [analyzeRequest t] ∧
    (∀ p, p ≠ input_file_name env.fileId →
      FS.read (handle_audio env st).1.fs p = FS.read st.fs p) ∧
    ("Ошибка анализа текста: " ++ detail) ∈ (handle_audio env st).1.log ∧
    ("Ошибка обработки: " ++ detail) ∈ (handle_audio env st).1.log := by
  have htry : handle_audio_try env st =
      ({ st with
          fs := FS.write (FS.write st.fs (input_file_name env.fileId) c)
            (input_file_name env.fileId) (env.sfWrite (env.reduceNoise data rate) rate),
          log := (st.log ++ ["Получено аудио от " ++ env.username])
            ++ ["Ошибка анализа текста: " ++ detail],
          llmLog := st.llmLog ++ [analyzeRequest t],
          whisperCalls := st.whisperCalls + 1,
          nrCalls := st.nrCalls + 1 },
        .error (.service detail)) := by
    unfold handle_audio_try after_download process_audio clean_audio transcribe_audio
      analyze_text fail
    simp [hdl, FS.read_write, hrd, List.length_eq_zero, hne, hinfo,
      not_lt.mpr hd, hw, hllm, errMsg]
  have hfe := handle_audio_fail_effects env st (.service detail) (by rw [htry])
  refine ⟨(hfe.2.2.2 hsend).2, ?_, ?_, fun p hp => ?_, ?_, ?_⟩
  · rw [(hfe.2.2.2 hsend).1, htry]
  · rw [hfe.2.2.1, htry]
  · rw [hfe.1, htry]
    show FS.read (FS.write (FS.write st.fs (input_file_name env.fileId) c)
      (input_file_name env.fileId) (env.sfWrite (env.reduceNoise data rate) rate)) p
      = FS.read st.fs p
    rw [FS.read_write, if_neg hp, FS.read_write, if_neg hp]
  · rw [hfe.2.1, htry]
    simp [errMsg]
  · rw [hfe.2.1, htry]
    simp [errMsg]

def envC5 : Env :=
  { env0 with
    downloadAudio := .ok "СЫРОЕ_АУДИО"
    sfRead := fun _ => .ok ([1], 8000)
    sfInfo := fun _ => .ok 100
    whisperTranscribe := fun _ => .ok "повестка"
    llm := fun _ => .error "401 неавторизован" }

/-- Witness for C5: an authentication failure of the analysis call yields the
generic notice, exactly one LLM request, and an untouched cache. -/
theorem analysis_failure_atomic_witness :
    (handle_audio envC5 St.empty).2 = .ok () ∧
    (handle_audio envC5 St.empty).1.sent = [FAILURE_NOTICE] ∧
    (handle_audio envC5 St.empty).1.llmLog = [analyzeRequest "повестка"] ∧
    FS.read (handle_audio envC5 St.empty).1.fs (cache_file "") = none ∧
    ("Ошибка анализа текста: " ++ "401 неавторизован")
      ∈ (handle_audio envC5 St.empty).1.log := by
  have h := analysis_failure_atomic envC5 St.empty "СЫРОЕ_АУДИО" [1] 8000 100
    "повестка" "401 неавторизован" rfl rfl (by simp) rfl (by norm_num [MAX_AUDIO_DURATION])
    rfl rfl rfl
  refine ⟨h.1, by rw [h.2.1]; rfl, by rw [h.2.2.1]; rfl, ?_, h.2.2.2.2.1⟩
  rw [h.2.2.2.1 (cache_file "") (by decide)]
  rfl

/-! ## C6: the user-facing failure message is one fixed constant -/

/-- C6: whatever stage failed in either of two failing runs and whatever the
underlying exception was, the message each run sends to its user is the same
fixed generic notice — the internal error content never influences it. -/
theorem failure_notice_noninterference (env env2 : Env) (st st2 : St) (e e2 : Err)
    (h1 : (handle_audio_try env st).2 = .error e)
    (h2 : (handle_audio_try env2 st2).2 = .error e2)
    (hs1 : env.replySend FAILURE_NOTICE = .ok ())
    (hs2 : env2.replySend FAILURE_NOTICE = .ok ()) :
    (handle_audio env st).1.sent = st.sent ++ [FAILURE_NOTICE] ∧
    (handle_audio env2 st2).1.sent = st2.sent ++ [FAILURE_NOTICE] := by
  have t1 : (handle_audio_try env st).1.sent = st.sent := by
    rcases (handle_try_spec env st).1 with ⟨p, hok, _, _⟩ | ⟨e', _, hsent, _⟩
    · rw [h1] at hok; exact absurd hok (by simp)
    · exact hsent
  have t2 : (handle_audio_try env2 st2).1.sent = st2.sent := by
    rcases (handle_try_spec env2 st2).1 with ⟨p, hok, _, _⟩ | ⟨e', _, hsent, _⟩
    · rw [h2] at hok; exact absurd hok (by simp)
    · exact hsent
  constructor
  · rw [((handle_audio_fail_effects env st e h1).2.2.2 hs1).1, t1]
  · rw [((handle_audio_fail_effects env2 st2 e2 h2).2.2.2 hs2).1, t2]

def envC6 : Env := { env0 with downloadAudio := .ok "ШУМ" }

/-- Witness for C6: two runs failing at different stages with different
exceptions both send exactly the same fixed notice. -/
theorem failure_notice_noninterference_witness :
    (handle_audio env0 St.empty).1.sent = [FAILURE_NOTICE] ∧
    (handle_audio envC6 St.empty).1.sent = [FAILURE_NOTICE] := by
  have h := failure_notice_noninterference env0 envC6 St.empty St.empty
    (.telegram "нет файла") (.io "нет декодера") (by rfl) (by rfl) rfl rfl
  exact ⟨by rw [h.1]; rfl, by rw [h.2]; rfl⟩

/-! ## C7: temp-file cleanup and the file-system frame -/

/-- C7: a successful run removes the downloaded temp file; a failing run
performs no cleanup — the temp file, once downloaded, is still on disk — and
in every case the handler touches no path other than the request's temp file
and paths inside the cache directory. -/
theorem temp_file_cleanup_frame (env : Env) (st : St) :
    ((handle_audio_try env st).2 = .ok () →
      FS.read (handle_audio_try env st).1.fs (input_file_name env.fileId) = none) ∧
    (∀ e, (handle_audio_try env st).2 = .error e →
      (handle_audio env st).1.fs = (handle_audio_try env st).1.fs ∧
      (∀ c, env.downloadAudio = .ok c →
        ∃ c2, FS.read (handle_audio env st).1.fs (input_file_name env.fileId) = some c2)) ∧
    (∀ p, p ≠ input_file_name env.fileId → (∀ s, p ≠ "cache/" ++ s) →
      FS.read (handle_audio env st).1.fs p = FS.read st.fs p) := by
  refine ⟨?_, ?_, ?_⟩
  · intro hok
    rcases (handle_try_spec env st).1 with ⟨p, _, _, hnone⟩ | ⟨e, herr, _, _⟩
    · exact hnone
    · rw [hok] at herr
      exact absurd herr (by simp)
  · intro e he
    have hfe := handle_audio_fail_effects env st e he
    refine ⟨hfe.1, fun c hc => ?_⟩
    rcases (handle_try_spec env st).1 with ⟨p, hok, _, _⟩ | ⟨e', _, _, hpres⟩
    · rw [he] at hok
      exact absurd hok (by simp)
    · obtain ⟨c2, hc2⟩ := hpres c hc
      exact ⟨c2, by rw [hfe.1]; exact hc2⟩
  · intro p hp hpc
    have hframe := (handle_try_spec env st).2 p hp hpc
    cases h2 : (handle_audio_try env st).2 with
    | ok u =>
      cases u
      rw [handle_audio_ok_state env st h2]
      exact hframe
    | error e =>
      rw [(handle_audio_fail_effects env st e h2).1]
      exact hframe

/-- Witness for C7: after the successful concrete run the temp file is gone,
and after a failing concrete run it is still present. -/
theorem temp_file_cleanup_frame_witness :
    FS.read (handle_audio_try envC4 St.empty).1.fs (input_file_name "FILE1") = none ∧
    ∃ c2, FS.read (handle_audio envC6 St.empty).1.fs (input_file_name "FILE1") = some c2 :=
  ⟨(temp_file_cleanup_frame envC4 St.empty).1 (by rfl),
   ((temp_file_cleanup_frame envC6 St.empty).2.1 (.io "нет декодера") (by rfl)).2
     "ШУМ" rfl⟩

/-! ## C10: totality of the outermost handler -/

def envC10 : Env := { env0 with replySend := fun _ => .error "телеграм недоступен" }

/-- C10 counterexample: the download fails, the handler catches it and tries
to send the failure notice, but that send itself fails — its exception
propagates out of `handle_audio` to the hosting framework, so the handler
does not return normally. -/
theorem handler_totality_counterexample :
    (handle_audio envC10 St.empty).2 = .error (.telegram "телеграм недоступен") := by rfl

/-- C10 amended: every stage exception inside the `try` body is caught and
answered with the fixed failure notice, and the handler returns normally —
except that a failure of sending the failure notice itself is the one
exception that can propagate out of `handle_audio`. -/
theorem handler_totality_amended (env : Env) (st : St) :
    (handle_audio env st).2 = .ok () ∨
    ∃ e, env.replySend FAILURE_NOTICE = .error e ∧
      (handle_audio env st).2 = .error (.telegram e) := by
  cases h2 : (handle_audio_try env st).2 with
  | ok u =>
    cases u
    rw [handle_audio_ok_state env st h2]
    exact Or.inl rfl
  | error e =>
    unfold handle_audio
    dsimp only
    rw [h2]
    dsimp only
    cases hrs : env.replySend FAILURE_NOTICE with
    | error e2 => exact Or.inr ⟨e2, by first | exact hrs | rfl, rfl⟩
    | ok u =>
      cases u
      exact Or.inl rfl
